import Mathlib

/-!
Shallow embedding of `src/nanobot/agent/tools/filesystem.py`: eight agent tools
(read, write, edit, list, rename, move, copy, mkdir) over a modelled filesystem.

The filesystem is a finite association list from absolute paths (component
lists) to nodes (regular file with string content, or directory), together with
a set of permission-denied paths.  Filesystem primitives (`read_text`,
`write_text`, `mkdir(parents=True, exist_ok=True)`, `rename`, `shutil.move`,
`shutil.copytree`, `shutil.copy2`) are modelled as functions returning
`Except PyExc _`, where `PyExc` enumerates the exception classes those
primitives raise.  Each tool's `execute` is then a total function
`FS → args → String × FS` whose branches mirror the Python source line by
line, including the `try`/`except PermissionError`/`except Exception`
wrapping that converts every exception into a result string.
-/

/-- A filesystem path, as the list of its components.  Models the result of
`Path(s).expanduser()`; `~`-expansion is the identity in this model (no claim
involves a home-relative path). -/
abbrev FPath := List String

/-- Worker for `parsePath`: split the character list on the separator,
dropping empty components; `cur` holds the current component reversed. -/
def parsePathGo (cur : List Char) : List Char → List String
  | [] => if cur = [] then [] else [String.mk cur.reverse]
  | c :: rest =>
    if c = '/' then
      if cur = [] then parsePathGo [] rest
      else String.mk cur.reverse :: parsePathGo [] rest
    else parsePathGo (c :: cur) rest

/-- Models `Path(s)` construction: split on the separator, dropping empty
components (so leading `/` and duplicate separators normalise away). -/
def parsePath (s : String) : FPath :=
  parsePathGo [] s.data

/-- `Path.parent` from `pathlib`: the path with its last component removed. -/
def FPath.parent (p : FPath) : FPath := p.dropLast

/-- `Path.name` from `pathlib`: the final component (empty for the root). -/
def FPath.base (p : FPath) : String := (p.getLast?).getD ""

/-- Render a path the way Python `str(Path(...))` interpolates it into
`f`-strings (components joined by the separator). -/
def FPath.render (p : FPath) : String := String.intercalate "/" p

deriving instance DecidableEq for Except

/-- A filesystem node: a regular file with its text content, or a directory. -/
inductive Node where
  | file (content : String)
  | dir
deriving DecidableEq, Repr

/-- The exception classes the modelled filesystem primitives can raise. -/
inductive PyExc where
  | permissionError
  | isADirectoryError (p : FPath)
  | fileNotFoundError (p : FPath)
  | fileExistsError (p : FPath)
  | intoItselfError (src dst : FPath)
deriving DecidableEq, Repr

/-- `str(e)` for a caught exception, as interpolated into the generic
`"Error ...ing ...: {e}"` messages (CPython quoting of the paths is
dropped). -/
def PyExc.toMessage : PyExc → String
  | .permissionError => "Permission denied"
  | .isADirectoryError p => "[Errno 21] Is a directory: " ++ p.render
  | .fileNotFoundError p => "[Errno 2] No such file or directory: " ++ p.render
  | .fileExistsError p => "[Errno 17] File exists: " ++ p.render
  | .intoItselfError src dst =>
    "Cannot move a directory " ++ src.render ++ " into itself " ++
      dst.render ++ "."

/-- Filesystem state: entries (later entries shadowed by earlier ones, as in an
association list) plus the set of paths on which the OS denies access. -/
structure FS where
  entries : List (FPath × Node)
  denied : List FPath
deriving DecidableEq, Repr

/-- First-match lookup in the entry list. -/
def lookupEntries (p : FPath) : List (FPath × Node) → Option Node
  | [] => none
  | e :: rest => if e.1 = p then some e.2 else lookupEntries p rest

/-- The node at `p`, if any.  The root `[]` always exists as a directory. -/
def FS.lookup (fs : FS) (p : FPath) : Option Node :=
  if p = [] then some Node.dir else lookupEntries p fs.entries

/-- `Path.exists()`. -/
def FS.pathExists (fs : FS) (p : FPath) : Bool := (fs.lookup p).isSome

/-- `Path.is_file()`. -/
def FS.isFile (fs : FS) (p : FPath) : Bool :=
  match fs.lookup p with
  | some (.file _) => true
  | _ => false

/-- `Path.is_dir()`. -/
def FS.isDir (fs : FS) (p : FPath) : Bool :=
  match fs.lookup p with
  | some .dir => true
  | _ => false

/-- Place node `n` at path `p`, shadowing any previous entry. -/
def FS.insert (fs : FS) (p : FPath) (n : Node) : FS :=
  { fs with entries := (p, n) :: fs.entries }

/-- `Path.read_text(encoding="utf-8")`. -/
def FS.readText (fs : FS) (p : FPath) : Except PyExc String :=
  if p ∈ fs.denied then .error .permissionError
  else
    match fs.lookup p with
    | some (.file c) => .ok c
    | some .dir => .error (.isADirectoryError p)
    | none => .error (.fileNotFoundError p)

/-- `Path.write_text(content, encoding="utf-8")`: fails on a denied path, on a
directory, or when the parent directory does not exist; otherwise replaces the
file content. -/
def FS.writeText (fs : FS) (p : FPath) (content : String) : Except PyExc FS :=
  if p ∈ fs.denied then .error .permissionError
  else
    match fs.lookup p with
    | some .dir => .error (.isADirectoryError p)
    | _ =>
      match fs.lookup p.parent with
      | some .dir => .ok (fs.insert p (.file content))
      | _ => .error (.fileNotFoundError p)

/-- Worker for `mkdir(parents=True, exist_ok=True)`: create each missing
ancestor in root-to-leaf order; an ancestor occupied by a regular file makes
the underlying `mkdir` raise. -/
def mkdirGo (fs : FS) (done : FPath) : List String → Except PyExc FS
  | [] => .ok fs
  | c :: rest =>
    match fs.lookup (done ++ [c]) with
    | some (.file _) => .error (.fileExistsError (done ++ [c]))
    | some .dir => mkdirGo fs (done ++ [c]) rest
    | none => mkdirGo (fs.insert (done ++ [c]) .dir) (done ++ [c]) rest

/-- `Path.mkdir(parents=True, exist_ok=True)`. -/
def FS.mkdirParents (fs : FS) (p : FPath) : Except PyExc FS :=
  if p ∈ fs.denied then .error .permissionError
  else mkdirGo fs [] p

/-- Remap every entry at or below `src` to the corresponding path below
`dst` (the subtree move performed by `os.rename` / `shutil.move`). -/
def FS.movePaths (fs : FS) (src dst : FPath) : FS :=
  { fs with
    entries := fs.entries.map (fun e =>
      if src.isPrefixOf e.1 then (dst ++ e.1.drop src.length, e.2) else e) }

/-- `Path.rename(target)` / `shutil.move(src, dst)` when the destination does
not already exist: fails on a denied path or a missing source; moving a
directory to a destination strictly inside itself fails (`os.rename` gives
EINVAL, and `shutil.move` then refuses with its "Cannot move a directory
into itself" error); otherwise the whole subtree moves. -/
def FS.moveTree (fs : FS) (src dst : FPath) : Except PyExc FS :=
  if src ∈ fs.denied ∨ dst ∈ fs.denied then .error .permissionError
  else
    match fs.lookup src with
    | none => .error (.fileNotFoundError src)
    | some n =>
      if n = Node.dir ∧ src.isPrefixOf dst = true ∧ src ≠ dst then
        .error (.intoItselfError src dst)
      else .ok (fs.movePaths src dst)

/-- `shutil.copytree(src, dst)` with `dst` not existing: duplicate every entry
at or below `src` at the corresponding path below `dst`, keeping the
originals.  The model copies one up-front snapshot of the source subtree;
`copytree` takes each directory listing before creating that level's
destination, so this agrees with CPython when the destination is disjoint
from the source and also when it sits directly below the source (the one
level affected is listed before the destination is created).  For a
destination nested deeper inside the source, CPython's later rescans see
partially copied state, and no theorem below addresses that region. -/
def FS.copyTree (fs : FS) (src dst : FPath) : Except PyExc FS :=
  if src ∈ fs.denied ∨ dst ∈ fs.denied then .error .permissionError
  else
    match fs.lookup src with
    | none => .error (.fileNotFoundError src)
    | some _ =>
      .ok { fs with
            entries :=
              (fs.entries.filterMap (fun e =>
                if src.isPrefixOf e.1 then
                  some (dst ++ e.1.drop src.length, e.2)
                else none)) ++ fs.entries }

/-- `shutil.copy2(src, dst)` for a regular-file source. -/
def FS.copyFile2 (fs : FS) (src dst : FPath) : Except PyExc FS :=
  if src ∈ fs.denied ∨ dst ∈ fs.denied then .error .permissionError
  else
    match fs.lookup src with
    | some (.file c) => .ok (fs.insert dst (.file c))
    | some .dir => .error (.isADirectoryError src)
    | none => .error (.fileNotFoundError src)

/-- Python `str.count` scan: number of non-overlapping occurrences of `pat`
starting at or after the current position; `skip` counts characters still to
be consumed by the previous match. -/
def pyCountAux (pat : List Char) : List Char → Nat → Nat
  | [], _ => 0
  | _ :: rest, Nat.succ k => pyCountAux pat rest k
  | c :: rest, 0 =>
    if pat.isPrefixOf (c :: rest) then 1 + pyCountAux pat rest (pat.length - 1)
    else pyCountAux pat rest 0

/-- Python `content.count(pat)`: non-overlapping occurrence count, with the
empty pattern also matching at the end of the string (so `len(s) + 1`). -/
def pyCount (s pat : String) : Nat :=
  pyCountAux pat.data s.data 0 + (if pat.data = [] then 1 else 0)

/-- Worker for Python `str.replace(old, new, 1)` with a nonempty `old`:
replace the leftmost occurrence only. -/
def pyReplace1Go (pat rep : List Char) : List Char → List Char
  | [] => []
  | c :: rest =>
    if pat.isPrefixOf (c :: rest) then rep ++ (c :: rest).drop pat.length
    else c :: pyReplace1Go pat rep rest

/-- Python `s.replace(pat, rep, 1)` (an empty `pat` inserts `rep` at the
front). -/
def pyReplace1 (s pat rep : String) : String :=
  if pat.data = [] then String.mk (rep.data ++ s.data)
  else String.mk (pyReplace1Go pat.data rep.data s.data)

/-- `ReadFileTool.execute(path)`. -/
def readFileExecute (fs : FS) (path : String) : String × FS :=
  let file_path := parsePath path
  if !(fs.pathExists file_path) then ("Error: File not found: " ++ path, fs)
  else if !(fs.isFile file_path) then ("Error: Not a file: " ++ path, fs)
  else
    match fs.readText file_path with
    | .ok content => (content, fs)
    | .error .permissionError => ("Error: Permission denied: " ++ path, fs)
    | .error e => ("Error reading file: " ++ e.toMessage, fs)

/-- `WriteFileTool.execute(path, content)`.  The reported size is Python
`len(content)`, i.e. the number of code points, modelled by
`String.length`. -/
def writeFileExecute (fs : FS) (path content : String) : String × FS :=
  let file_path := parsePath path
  match fs.mkdirParents file_path.parent with
  | .error .permissionError => ("Error: Permission denied: " ++ path, fs)
  | .error e => ("Error writing file: " ++ e.toMessage, fs)
  | .ok fs1 =>
    match fs1.writeText file_path content with
    | .ok fs2 =>
      ("Successfully wrote " ++ toString content.length ++ " bytes to " ++ path,
       fs2)
    | .error .permissionError => ("Error: Permission denied: " ++ path, fs1)
    | .error e => ("Error writing file: " ++ e.toMessage, fs1)

/-- `EditFileTool.execute(path, old_text, new_text)`. -/
def editFileExecute (fs : FS) (path old_text new_text : String) : String × FS :=
  let file_path := parsePath path
  if !(fs.pathExists file_path) then ("Error: File not found: " ++ path, fs)
  else
    match fs.readText file_path with
    | .error .permissionError => ("Error: Permission denied: " ++ path, fs)
    | .error e => ("Error editing file: " ++ e.toMessage, fs)
    | .ok content =>
      if pyCount content old_text = 0 then
        ("Error: old_text not found in file. Make sure it matches exactly.", fs)
      else
        let count := pyCount content old_text
        if count > 1 then
          ("Warning: old_text appears " ++ toString count ++
             " times. Please provide more context to make it unique.", fs)
        else
          let new_content := pyReplace1 content old_text new_text
          match fs.writeText file_path new_content with
          | .ok fs2 => ("Successfully edited " ++ path, fs2)
          | .error .permissionError =>
            ("Error: Permission denied: " ++ path, fs)
          | .error e => ("Error editing file: " ++ e.toMessage, fs)

/-- Insertion step for the lexicographic sort `sorted(dir_path.iterdir())`. -/
def insertSorted (x : String × Bool) :
    List (String × Bool) → List (String × Bool)
  | [] => [x]
  | y :: ys => if x.1 ≤ y.1 then x :: y :: ys else y :: insertSorted x ys

/-- `sorted(...)` over directory entries, keyed by name. -/
def sortByName : List (String × Bool) → List (String × Bool)
  | [] => []
  | x :: xs => insertSorted x (sortByName xs)

/-- `ListDirTool.execute(path)`: each immediate child with a directory or file
marker, sorted by name; iterating a denied directory raises
`PermissionError`. -/
def listDirExecute (fs : FS) (path : String) : String × FS :=
  let dir_path := parsePath path
  if !(fs.pathExists dir_path) then ("Error: Directory not found: " ++ path, fs)
  else if !(fs.isDir dir_path) then ("Error: Not a directory: " ++ path, fs)
  else if dir_path ∈ fs.denied then ("Error: Permission denied: " ++ path, fs)
  else
    let children := fs.entries.filterMap (fun e =>
      if e.1.parent = dir_path ∧ e.1 ≠ [] then
        some (FPath.base e.1, e.2 == Node.dir)
      else none)
    let items := (sortByName children).map (fun c =>
      (if c.2 then "📁 " else "📄 ") ++ c.1)
    if items = [] then ("Directory " ++ path ++ " is empty", fs)
    else (String.intercalate "\n" items, fs)

/-- `RenameFileTool.execute(old_path, new_name)`. -/
def renameFileExecute (fs : FS) (old_path new_name : String) : String × FS :=
  let old_file := parsePath old_path
  if !(fs.pathExists old_file) then
    ("Error: File or directory not found: " ++ old_path, fs)
  else if new_name.data.contains '/' || new_name.data.contains '\\' then
    ("Error: new_name should be just a name, not a path", fs)
  else
    let new_file := old_file.parent ++ [new_name]
    if fs.pathExists new_file then
      ("Error: Target already exists: " ++ new_file.render, fs)
    else
      match fs.moveTree old_file new_file with
      | .ok fs2 =>
        ("Successfully renamed " ++ old_path ++ " to " ++ new_name, fs2)
      | .error .permissionError => ("Error: Permission denied", fs)
      | .error e => ("Error renaming: " ++ e.toMessage, fs)

/-- `MoveFileTool.execute(source, destination)`. -/
def moveFileExecute (fs : FS) (source destination : String) : String × FS :=
  let src_path := parsePath source
  if !(fs.pathExists src_path) then ("Error: Source not found: " ++ source, fs)
  else
    let dest_path0 := parsePath destination
    let dest_path :=
      if fs.isDir dest_path0 then dest_path0 ++ [src_path.base] else dest_path0
    match fs.mkdirParents dest_path.parent with
    | .error .permissionError => ("Error: Permission denied", fs)
    | .error e => ("Error moving: " ++ e.toMessage, fs)
    | .ok fs1 =>
      if fs1.pathExists dest_path then
        ("Error: Destination already exists: " ++ destination, fs1)
      else
        match fs1.moveTree src_path dest_path with
        | .ok fs2 =>
          ("Successfully moved " ++ source ++ " to " ++ destination, fs2)
        | .error .permissionError => ("Error: Permission denied", fs1)
        | .error e => ("Error moving: " ++ e.toMessage, fs1)

/-- `CopyFileTool.execute(source, destination)`. -/
def copyFileExecute (fs : FS) (source destination : String) : String × FS :=
  let src_path := parsePath source
  if !(fs.pathExists src_path) then ("Error: Source not found: " ++ source, fs)
  else
    let dest_path0 := parsePath destination
    let dest_path :=
      if fs.isDir dest_path0 then dest_path0 ++ [src_path.base] else dest_path0
    match fs.mkdirParents dest_path.parent with
    | .error .permissionError => ("Error: Permission denied", fs)
    | .error e => ("Error copying: " ++ e.toMessage, fs)
    | .ok fs1 =>
      if fs1.pathExists dest_path then
        ("Error: Destination already exists: " ++ destination, fs1)
      else
        match
          (if fs1.isDir src_path then fs1.copyTree src_path dest_path
           else fs1.copyFile2 src_path dest_path) with
        | .ok fs2 =>
          ("Successfully copied " ++ source ++ " to " ++ destination, fs2)
        | .error .permissionError => ("Error: Permission denied", fs1)
        | .error e => ("Error copying: " ++ e.toMessage, fs1)

/-- `CreateDirTool.execute(path)`. -/
def createDirExecute (fs : FS) (path : String) : String × FS :=
  let dir_path := parsePath path
  if fs.pathExists dir_path then
    if fs.isDir dir_path then ("Directory already exists: " ++ path, fs)
    else ("Error: A file with this name already exists: " ++ path, fs)
  else
    match fs.mkdirParents dir_path with
    | .ok fs1 => ("Successfully created directory: " ++ path, fs1)
    | .error .permissionError => ("Error: Permission denied: " ++ path, fs)
    | .error e => ("Error creating directory: " ++ e.toMessage, fs)

/-- One invocation of a registry tool with its (schema-conforming)
arguments. -/
inductive ToolCall where
  | readFile (path : String)
  | writeFile (path content : String)
  | editFile (path old_text new_text : String)
  | listDir (path : String)
  | renameFile (old_path new_name : String)
  | moveFile (source destination : String)
  | copyFile (source destination : String)
  | createDir (path : String)
deriving DecidableEq, Repr

/-- Dispatch a tool call against the registry: every tool's `execute`,
including its exception-to-string conversion, as one total function. -/
def dispatch (fs : FS) : ToolCall → String × FS
  | .readFile p => readFileExecute fs p
  | .writeFile p c => writeFileExecute fs p c
  | .editFile p o n => editFileExecute fs p o n
  | .listDir p => listDirExecute fs p
  | .renameFile o n => renameFileExecute fs o n
  | .moveFile s d => moveFileExecute fs s d
  | .copyFile s d => copyFileExecute fs s d
  | .createDir p => createDirExecute fs p

theorem lookupEntries_of_forall_ne {q : FPath} {l : List (FPath × Node)}
    (h : ∀ e ∈ l, e.1 ≠ q) : lookupEntries q l = none := by
  induction l with
  | nil => rfl
  | cons e rest ih =>
    simp only [lookupEntries]
    rw [if_neg (h e (List.mem_cons_self e rest))]
    exact ih (fun e' he' => h e' (List.mem_cons_of_mem e he'))

theorem lookupEntries_isSome_of_mem {q : FPath} {n : Node}
    {l : List (FPath × Node)} (h : (q, n) ∈ l) :
    (lookupEntries q l).isSome = true := by
  induction l with
  | nil => simp at h
  | cons e rest ih =>
    simp only [lookupEntries]
    rcases List.mem_cons.mp h with h' | h'
    · rw [if_pos]
      · rfl
      · rw [← h']
    · by_cases he : e.1 = q
      · rw [if_pos he]; rfl
      · rw [if_neg he]; exact ih h'

theorem lookupEntries_append_left_none {q : FPath} {l1 l2 : List (FPath × Node)}
    (h : lookupEntries q l1 = none) :
    lookupEntries q (l1 ++ l2) = lookupEntries q l2 := by
  induction l1 with
  | nil => rfl
  | cons e rest ih =>
    simp only [lookupEntries] at h ⊢
    by_cases he : e.1 = q
    · rw [if_pos he] at h; exact absurd h (by simp)
    · rw [if_neg he] at h ⊢
      exact ih h

theorem lookupEntries_append_right_none {q : FPath} {l1 l2 : List (FPath × Node)}
    (h : lookupEntries q l2 = none) :
    lookupEntries q (l1 ++ l2) = lookupEntries q l1 := by
  induction l1 with
  | nil => exact h
  | cons e rest ih =>
    simp only [lookupEntries, List.cons_append]
    by_cases he : e.1 = q
    · rw [if_pos he, if_pos he]
    · rw [if_neg he, if_neg he]
      exact ih

theorem FS.lookup_insert_self (fs : FS) (p : FPath) (n : Node) (hp : p ≠ []) :
    (fs.insert p n).lookup p = some n := by
  simp [FS.insert, FS.lookup, lookupEntries, hp]

theorem FS.insert_denied (fs : FS) (p : FPath) (n : Node) :
    (fs.insert p n).denied = fs.denied := rfl

theorem FS.readText_ok {fs : FS} {p : FPath} {content : String}
    (h : fs.readText p = .ok content) :
    p ∉ fs.denied ∧ fs.lookup p = some (.file content) := by
  unfold FS.readText at h
  by_cases hd : p ∈ fs.denied
  · rw [if_pos hd] at h; exact absurd h (by simp)
  · rw [if_neg hd] at h
    refine ⟨hd, ?_⟩
    match hl : fs.lookup p with
    | some (.file c) => rw [hl] at h; cases h; rfl
    | some .dir => rw [hl] at h; exact absurd h (by simp)
    | none => rw [hl] at h; exact absurd h (by simp)

theorem FS.readText_ok_pathExists {fs : FS} {p : FPath} {content : String}
    (h : fs.readText p = .ok content) : fs.pathExists p = true := by
  rcases FS.readText_ok h with ⟨-, hl⟩
  simp [FS.pathExists, hl]

theorem FS.readText_ok_isFile {fs : FS} {p : FPath} {content : String}
    (h : fs.readText p = .ok content) : fs.isFile p = true := by
  rcases FS.readText_ok h with ⟨-, hl⟩
  simp [FS.isFile, hl]

theorem FS.lookup_ne_root {fs : FS} {p : FPath} {c : String}
    (h : fs.lookup p = some (.file c)) : p ≠ [] := by
  intro hp
  rw [hp] at h
  simp [FS.lookup] at h

theorem FS.writeText_ok {fs fs' : FS} {p : FPath} {content : String}
    (h : fs.writeText p content = .ok fs') :
    p ∉ fs.denied ∧ p ≠ [] ∧ fs' = fs.insert p (.file content) := by
  unfold FS.writeText at h
  by_cases hd : p ∈ fs.denied
  · rw [if_pos hd] at h; exact absurd h (by simp)
  · rw [if_neg hd] at h
    refine ⟨hd, ?_, ?_⟩
    · intro hp
      rw [hp] at h
      have : fs.lookup ([] : FPath) = some Node.dir := by simp [FS.lookup]
      rw [this] at h
      exact absurd h (by simp)
    · match hl : fs.lookup p with
      | some .dir => rw [hl] at h; exact absurd h (by simp)
      | some (.file c) =>
        rw [hl] at h
        match hl2 : fs.lookup p.parent with
        | some .dir => rw [hl2] at h; cases h; rfl
        | some (.file c2) => rw [hl2] at h; exact absurd h (by simp)
        | none => rw [hl2] at h; exact absurd h (by simp)
      | none =>
        rw [hl] at h
        match hl2 : fs.lookup p.parent with
        | some .dir => rw [hl2] at h; cases h; rfl
        | some (.file c2) => rw [hl2] at h; exact absurd h (by simp)
        | none => rw [hl2] at h; exact absurd h (by simp)

theorem mkdirGo_ok_lookup_dir (rest : List String) :
    ∀ (c : String) (fs : FS) (done : FPath) (fs' : FS),
      mkdirGo fs done (c :: rest) = .ok fs' →
      fs'.lookup (done ++ c :: rest) = some Node.dir := by
  induction rest with
  | nil =>
    intro c fs done fs' h
    unfold mkdirGo at h
    match hl : fs.lookup (done ++ [c]) with
    | some (.file c2) => rw [hl] at h; exact absurd h (by simp)
    | some .dir =>
      rw [hl] at h
      unfold mkdirGo at h
      cases h
      exact hl
    | none =>
      rw [hl] at h
      unfold mkdirGo at h
      cases h
      exact FS.lookup_insert_self _ _ _ (by simp)
  | cons c2 rest2 ih =>
    intro c fs done fs' h
    unfold mkdirGo at h
    match hl : fs.lookup (done ++ [c]) with
    | some (.file c3) => rw [hl] at h; exact absurd h (by simp)
    | some .dir =>
      rw [hl] at h
      have := ih c2 fs (done ++ [c]) fs' h
      rwa [List.append_assoc, List.singleton_append] at this
    | none =>
      rw [hl] at h
      have := ih c2 (fs.insert (done ++ [c]) .dir) (done ++ [c]) fs' h
      rwa [List.append_assoc, List.singleton_append] at this

theorem FS.mkdirParents_ok_lookup_dir {fs fs' : FS} {p : FPath}
    (hp : p ≠ []) (h : fs.mkdirParents p = .ok fs') :
    fs'.lookup p = some Node.dir := by
  unfold FS.mkdirParents at h
  by_cases hd : p ∈ fs.denied
  · rw [if_pos hd] at h; exact absurd h (by simp)
  · rw [if_neg hd] at h
    match p, hp with
    | c :: rest, _ =>
      have := mkdirGo_ok_lookup_dir rest c fs [] fs' h
      rwa [List.nil_append] at this

theorem not_prefix_append {a b : FPath} (hab : ¬ a <+: b) (hba : ¬ b <+: a)
    (u : FPath) : ¬ a <+: b ++ u := by
  intro h
  rcases List.prefix_or_prefix_of_prefix h (List.prefix_append b u) with h' | h'
  · exact hab h'
  · exact hba h'

theorem lookupEntries_movePaths_src {sp dst : FPath}
    (l : List (FPath × Node)) (hnp : ¬ dst <+: sp) :
    lookupEntries sp (l.map (fun e =>
      if sp.isPrefixOf e.1 then (dst ++ e.1.drop sp.length, e.2) else e)) =
      none := by
  induction l with
  | nil => rfl
  | cons e rest ih =>
    simp only [List.map_cons, lookupEntries]
    by_cases hpre : sp.isPrefixOf e.1
    · rw [if_pos hpre]
      rw [if_neg, ih]
      intro hk
      exact hnp (hk ▸ List.prefix_append dst (e.1.drop sp.length))
    · rw [if_neg hpre]
      rw [if_neg, ih]
      intro hk
      rw [hk] at hpre
      exact hpre ( List.isPrefixOf_iff_prefix.mpr (List.prefix_refl sp))

theorem lookupEntries_movePaths_dst {sp dst : FPath}
    (l : List (FPath × Node)) (hnd : ∀ e ∈ l, e.1 ≠ dst) :
    lookupEntries dst (l.map (fun e =>
      if sp.isPrefixOf e.1 then (dst ++ e.1.drop sp.length, e.2) else e)) =
      lookupEntries sp l := by
  induction l with
  | nil => rfl
  | cons e rest ih =>
    simp only [List.map_cons, lookupEntries]
    by_cases hpre : sp.isPrefixOf e.1
    · rw [if_pos hpre]
      rcases List.isPrefixOf_iff_prefix.mp hpre with ⟨u, hu⟩
      have hdrop : e.1.drop sp.length = u := by
        rw [← hu, List.drop_left]
      by_cases hu0 : u = []
      · have he1 : e.1 = sp := by rw [← hu, hu0, List.append_nil]
        rw [hdrop, hu0, List.append_nil]
        simp [lookupEntries, he1]
      · have hk : dst ++ e.1.drop sp.length ≠ dst := by
          rw [hdrop]
          intro hk
          have := congrArg List.length hk
          simp [hu0] at this
        have he1 : e.1 ≠ sp := by
          intro he
          apply hu0
          have h2 : sp ++ u = sp ++ [] := by
            rw [List.append_nil]; exact hu.trans he
          exact List.append_cancel_left h2
        rw [if_neg hk, if_neg he1]
        exact ih (fun e' he' => hnd e' (List.mem_cons_of_mem e he'))
    · rw [if_neg hpre]
      have he1 : e.1 ≠ sp := by
        intro he
        rw [he] at hpre
        exact hpre ( List.isPrefixOf_iff_prefix.mpr (List.prefix_refl sp))
      rw [if_neg (hnd e (List.mem_cons_self e rest)), if_neg he1]
      exact ih (fun e' he' => hnd e' (List.mem_cons_of_mem e he'))

theorem lookupEntries_copies {sp dst : FPath} (rest : FPath)
    (l : List (FPath × Node)) :
    lookupEntries (dst ++ rest) (l.filterMap (fun e =>
      if sp.isPrefixOf e.1 then some (dst ++ e.1.drop sp.length, e.2)
      else none)) =
      lookupEntries (sp ++ rest) l := by
  induction l with
  | nil => rfl
  | cons e tail ih =>
    by_cases hpre : sp.isPrefixOf e.1
    · rcases List.isPrefixOf_iff_prefix.mp hpre with ⟨u, hu⟩
      have hdrop : e.1.drop sp.length = u := by
        rw [← hu, List.drop_left]
      simp only [List.filterMap_cons, if_pos hpre, lookupEntries]
      by_cases hur : u = rest
      · rw [if_pos, if_pos]
        · rw [← hu, hur]
        · rw [hdrop, hur]
      · rw [if_neg, if_neg, ih]
        · intro hk
          rw [← hu] at hk
          exact hur (List.append_cancel_left hk)
        · intro hk
          rw [hdrop] at hk
          exact hur (List.append_cancel_left hk)
    · simp only [List.filterMap_cons, if_neg hpre, lookupEntries]
      rw [if_neg, ih]
      intro hk
      exact hpre ( List.isPrefixOf_iff_prefix.mpr (hk ▸ List.prefix_append sp rest))

theorem copies_forall_ne {sp dst : FPath} {l : List (FPath × Node)} (q : FPath)
    (hq : ¬ dst <+: q) :
    ∀ e ∈ l.filterMap (fun e =>
      if sp.isPrefixOf e.1 then some (dst ++ e.1.drop sp.length, e.2)
      else none), e.1 ≠ q := by
  intro e he
  rcases List.mem_filterMap.mp he with ⟨a, _, hfa⟩
  by_cases hpre : sp.isPrefixOf a.1
  · rw [if_pos hpre] at hfa
    cases hfa
    intro hk
    exact hq (hk ▸ List.prefix_append dst (a.1.drop sp.length))
  · rw [if_neg hpre] at hfa
    exact absurd hfa (by simp)

theorem FS.lookup_eq_none_of_pathExists_false {fs : FS} {q : FPath}
    (h : fs.pathExists q = false) : fs.lookup q = none := by
  unfold FS.pathExists at h
  cases hl : fs.lookup q with
  | none => rfl
  | some n => rw [hl] at h; exact absurd h (by simp)

theorem FS.ne_root_of_pathExists_false {fs : FS} {q : FPath}
    (h : fs.pathExists q = false) : q ≠ [] := by
  intro hq
  rw [hq] at h
  simp [FS.pathExists, FS.lookup] at h

theorem FS.forall_ne_of_pathExists_false {fs : FS} {q : FPath}
    (h : fs.pathExists q = false) : ∀ e ∈ fs.entries, e.1 ≠ q := by
  intro e he hq
  have hl := FS.lookup_eq_none_of_pathExists_false h
  have hne := FS.ne_root_of_pathExists_false h
  rw [FS.lookup, if_neg hne] at hl
  have : (q, e.2) ∈ fs.entries := by rw [← hq]; exact he
  have := lookupEntries_isSome_of_mem this
  rw [hl] at this
  exact absurd this (by simp)

theorem FS.isDir_lookup {fs : FS} {p : FPath} (h : fs.isDir p = true) :
    fs.lookup p = some Node.dir := by
  unfold FS.isDir at h
  match hl : fs.lookup p with
  | some .dir => rfl
  | some (.file c) => rw [hl] at h; exact absurd h (by simp)
  | none => rw [hl] at h; exact absurd h (by simp)

theorem FS.moveTree_ok {fs : FS} {src dst : FPath} {n : Node}
    (hd1 : src ∉ fs.denied) (hd2 : dst ∉ fs.denied) (hne : src ≠ [])
    (hlu : lookupEntries src fs.entries = some n)
    (hcond : ¬ (n = Node.dir ∧ src.isPrefixOf dst = true ∧ src ≠ dst)) :
    fs.moveTree src dst = .ok (fs.movePaths src dst) := by
  unfold FS.moveTree
  rw [if_neg (not_or.mpr ⟨hd1, hd2⟩), FS.lookup, if_neg hne, hlu]
  exact if_neg hcond

theorem FS.moveTree_into_itself {fs : FS} {src dst : FPath}
    (hd1 : src ∉ fs.denied) (hd2 : dst ∉ fs.denied) (hne : src ≠ [])
    (hlu : lookupEntries src fs.entries = some Node.dir)
    (h1 : src.isPrefixOf dst = true) (h2 : src ≠ dst) :
    fs.moveTree src dst = .error (.intoItselfError src dst) := by
  unfold FS.moveTree
  rw [if_neg (not_or.mpr ⟨hd1, hd2⟩), FS.lookup, if_neg hne, hlu]
  exact if_pos ⟨rfl, h1, h2⟩

theorem writeFileExecute_ok {fs fs1 fs2 : FS} {path content : String}
    (h1 : fs.mkdirParents (FPath.parent (parsePath path)) = .ok fs1)
    (h2 : fs1.writeText (parsePath path) content = .ok fs2) :
    writeFileExecute fs path content =
      ("Successfully wrote " ++ toString content.length ++ " bytes to " ++ path,
       fs2) := by
  simp only [writeFileExecute, h1, h2]

/-- Claim C1, counterexample: on content `"é"` the tool reports Python
`len(content)` (1 code point), while the written UTF-8 encoding is 2 bytes,
so the reported N is not the byte length of the content as written. -/
theorem writeFile_reported_bytes_cex :
    (writeFileExecute ⟨[], []⟩ "p" "é").1 = "Successfully wrote 1 bytes to p" ∧
    ("é" : String).utf8ByteSize = 2 ∧
    (writeFileExecute ⟨[], []⟩ "p" "é").1 ≠
      "Successfully wrote " ++ toString (("é" : String).utf8ByteSize) ++
        " bytes to p" := by
  decide

/-- Claim C1, amended: a successful `WriteFileTool.execute` call returns
`"Successfully wrote {N} bytes to {path}"` where N is Python `len(content)`,
the number of code points of the content (equal to the byte length only for
ASCII content). -/
theorem writeFile_reports_python_len (fs fs1 fs2 : FS) (path content : String)
    (h1 : fs.mkdirParents (FPath.parent (parsePath path)) = .ok fs1)
    (h2 : fs1.writeText (parsePath path) content = .ok fs2) :
    writeFileExecute fs path content =
      ("Successfully wrote " ++ toString content.length ++ " bytes to " ++ path,
       fs2) :=
  writeFileExecute_ok h1 h2

/-- Witness for the amended claim C1 at a concrete successful write. -/
theorem writeFile_reports_python_len_witness :
    writeFileExecute ⟨[], []⟩ "p" "hi" =
      ("Successfully wrote " ++ toString ("hi" : String).length ++
         " bytes to " ++ "p",
       ⟨[(["p"], Node.file "hi")], []⟩) :=
  writeFile_reports_python_len ⟨[], []⟩ ⟨[], []⟩ ⟨[(["p"], Node.file "hi")], []⟩
    "p" "hi" (by decide) (by decide)

/-- Claim C2: for every tool in the registry and every argument mapping,
`execute` returns a string (paired with the resulting filesystem state); the
registry dispatch is a total function, every exception a primitive can raise
being converted to a message by the modelled `except` clauses, so no
exception propagates to the caller. -/
theorem dispatch_always_returns_string (fs : FS) (call : ToolCall) :
    ∃ (s : String) (fs' : FS), dispatch fs call = (s, fs') :=
  ⟨(dispatch fs call).1, (dispatch fs call).2, rfl⟩

/-- Claim C5: reading a path immediately after a successful write of
`content` to that path returns exactly `content` (write-then-read round
trip). -/
theorem writeFile_readFile_roundtrip (fs fs1 fs2 : FS) (path content : String)
    (h1 : fs.mkdirParents (FPath.parent (parsePath path)) = .ok fs1)
    (h2 : fs1.writeText (parsePath path) content = .ok fs2) :
    readFileExecute (writeFileExecute fs path content).2 path =
      (content, fs2) := by
  rw [writeFileExecute_ok h1 h2]
  rcases FS.writeText_ok h2 with ⟨hd, hp, rfl⟩
  have hlu := FS.lookup_insert_self fs1 (parsePath path) (.file content) hp
  have he : (fs1.insert (parsePath path) (.file content)).pathExists
      (parsePath path) = true := by
    simp [FS.pathExists, hlu]
  have hf : (fs1.insert (parsePath path) (.file content)).isFile
      (parsePath path) = true := by
    simp [FS.isFile, hlu]
  have hr : (fs1.insert (parsePath path) (.file content)).readText
      (parsePath path) = .ok content := by
    unfold FS.readText
    rw [if_neg, hlu]
    exact hd
  simp only [readFileExecute, he, hf, hr, Bool.not_true, Bool.false_eq_true,
    if_false]

/-- Witness for claim C5 at a concrete write-then-read. -/
theorem writeFile_readFile_roundtrip_witness :
    readFileExecute (writeFileExecute ⟨[], []⟩ "a/b.txt" "hello").2 "a/b.txt" =
      ("hello", ⟨[(["a", "b.txt"], Node.file "hello"), (["a"], Node.dir)], []⟩) :=
  writeFile_readFile_roundtrip ⟨[], []⟩ ⟨[(["a"], Node.dir)], []⟩
    ⟨[(["a", "b.txt"], Node.file "hello"), (["a"], Node.dir)], []⟩
    "a/b.txt" "hello" (by decide) (by decide)

/-- Claim C10: calling `WriteFileTool.execute` on a path occupied by an
existing directory (whose parents exist, so the `mkdir` step is the identity)
returns the generic writing-error rendering of the raised
`IsADirectoryError`, and the filesystem — the directory and its contents —
is unchanged. -/
theorem writeFile_on_directory_errors (fs : FS) (path content : String)
    (hdir : fs.lookup (parsePath path) = some Node.dir)
    (hmk : fs.mkdirParents (FPath.parent (parsePath path)) = .ok fs)
    (hdn : parsePath path ∉ fs.denied) :
    writeFileExecute fs path content =
      ("Error writing file: " ++
         PyExc.toMessage (.isADirectoryError (parsePath path)), fs) := by
  have hw : fs.writeText (parsePath path) content =
      .error (.isADirectoryError (parsePath path)) := by
    unfold FS.writeText
    rw [if_neg hdn, hdir]
  simp only [writeFileExecute, hmk, hw]

/-- Witness for claim C10 at a concrete directory path. -/
theorem writeFile_on_directory_errors_witness :
    writeFileExecute ⟨[(["d"], Node.dir)], []⟩ "d" "x" =
      ("Error writing file: " ++
         PyExc.toMessage (.isADirectoryError (parsePath "d")),
       ⟨[(["d"], Node.dir)], []⟩) :=
  writeFile_on_directory_errors ⟨[(["d"], Node.dir)], []⟩ "d" "x" (by decide)
    (by decide) (by decide)

/-- Claim C3: when `old_text` occurs more than once in the file content,
`EditFileTool.execute` returns the disambiguation warning and leaves the
filesystem — in particular the file content — exactly as before the call. -/
theorem editFile_ambiguous_warns_no_write (fs : FS)
    (path old_text new_text content : String)
    (hr : fs.readText (parsePath path) = .ok content)
    (hc : 1 < pyCount content old_text) :
    editFileExecute fs path old_text new_text =
      ("Warning: old_text appears " ++ toString (pyCount content old_text) ++
         " times. Please provide more context to make it unique.", fs) := by
  have he := FS.readText_ok_pathExists hr
  have h0 : ¬ (pyCount content old_text = 0) := by omega
  simp only [editFileExecute, he, Bool.not_true, Bool.false_eq_true,
    if_false, hr]
  rw [if_neg h0, if_pos hc]

/-- Witness for claim C3 on content `"foo foo"` with `old_text = "foo"`. -/
theorem editFile_ambiguous_warns_no_write_witness :
    editFileExecute ⟨[(["f"], Node.file "foo foo")], []⟩ "f" "foo" "bar" =
      ("Warning: old_text appears " ++ toString (pyCount "foo foo" "foo") ++
         " times. Please provide more context to make it unique.",
       ⟨[(["f"], Node.file "foo foo")], []⟩) :=
  editFile_ambiguous_warns_no_write ⟨[(["f"], Node.file "foo foo")], []⟩
    "f" "foo" "bar" "foo foo" (by decide) (by decide)

/-- Claim C4: when `old_text` occurs exactly once in the content,
`EditFileTool.execute` writes back the content with that single occurrence
replaced by `new_text` and reports success (reading the file afterwards
returns the replaced content); when `old_text` does not occur at all, it
returns the not-found-in-content error and the filesystem is unchanged. -/
theorem editFile_unique_replaces_once (fs : FS)
    (path old_text new_text content : String)
    (hr : fs.readText (parsePath path) = .ok content)
    (hpar : fs.lookup (FPath.parent (parsePath path)) = some Node.dir) :
    (pyCount content old_text = 1 →
      editFileExecute fs path old_text new_text =
        ("Successfully edited " ++ path,
         fs.insert (parsePath path)
           (.file (pyReplace1 content old_text new_text))) ∧
      (fs.insert (parsePath path)
          (.file (pyReplace1 content old_text new_text))).readText
          (parsePath path) =
        .ok (pyReplace1 content old_text new_text)) ∧
    (pyCount content old_text = 0 →
      editFileExecute fs path old_text new_text =
        ("Error: old_text not found in file. Make sure it matches exactly.",
         fs)) := by
  rcases FS.readText_ok hr with ⟨hd, hlu⟩
  have he := FS.readText_ok_pathExists hr
  have hp := FS.lookup_ne_root hlu
  constructor
  · intro hc1
    have h0 : ¬ (pyCount content old_text = 0) := by omega
    have hgt : ¬ (1 < pyCount content old_text) := by omega
    have hw : fs.writeText (parsePath path)
        (pyReplace1 content old_text new_text) =
        .ok (fs.insert (parsePath path)
          (.file (pyReplace1 content old_text new_text))) := by
      unfold FS.writeText
      rw [if_neg hd, hlu, hpar]
    constructor
    · simp only [editFileExecute, he, Bool.not_true, Bool.false_eq_true,
        if_false, hr]
      rw [if_neg h0, if_neg hgt, hw]
    · unfold FS.readText
      rw [if_neg, FS.lookup_insert_self fs (parsePath path) _ hp]
      exact hd
  · intro hc0
    simp only [editFileExecute, he, Bool.not_true, Bool.false_eq_true,
      if_false, hr]
    rw [if_pos hc0]

/-- Witness for claim C4: editing `"a-b-c"` replacing `"b"` with `"X"`
succeeds and yields `"a-X-c"`; re-applying the same edit then fails with
the not-found error and changes nothing. -/
theorem editFile_unique_replaces_once_witness :
    (editFileExecute ⟨[(["f"], Node.file "a-b-c")], []⟩ "f" "b" "X" =
      ("Successfully edited " ++ "f",
       (⟨[(["f"], Node.file "a-b-c")], []⟩ : FS).insert (parsePath "f")
         (.file (pyReplace1 "a-b-c" "b" "X"))) ∧
     ((⟨[(["f"], Node.file "a-b-c")], []⟩ : FS).insert (parsePath "f")
         (.file (pyReplace1 "a-b-c" "b" "X"))).readText (parsePath "f") =
       .ok (pyReplace1 "a-b-c" "b" "X")) ∧
    editFileExecute ((⟨[(["f"], Node.file "a-b-c")], []⟩ : FS).insert
        (parsePath "f") (.file (pyReplace1 "a-b-c" "b" "X"))) "f" "b" "X" =
      ("Error: old_text not found in file. Make sure it matches exactly.",
       (⟨[(["f"], Node.file "a-b-c")], []⟩ : FS).insert (parsePath "f")
         (.file (pyReplace1 "a-b-c" "b" "X"))) :=
  ⟨(editFile_unique_replaces_once ⟨[(["f"], Node.file "a-b-c")], []⟩
      "f" "b" "X" "a-b-c" (by decide) (by decide)).1 (by decide),
   (editFile_unique_replaces_once ((⟨[(["f"], Node.file "a-b-c")], []⟩ :
        FS).insert (parsePath "f") (.file (pyReplace1 "a-b-c" "b" "X")))
      "f" "b" "X" "a-X-c" (by decide) (by decide)).2 (by decide)⟩

/-- Claim C9, counterexample: with a regular file at `a` and nothing at
`a/b`, `CreateDirTool.execute("a/b")` finds nothing at the path yet returns
the generic creating-error message (the underlying `mkdir` raises on the
file ancestor), not a creation success. -/
theorem createDir_success_claim_cex :
    (⟨[(["a"], Node.file "x")], []⟩ : FS).pathExists (parsePath "a/b") =
      false ∧
    createDirExecute ⟨[(["a"], Node.file "x")], []⟩ "a/b" =
      ("Error creating directory: [Errno 17] File exists: a",
       ⟨[(["a"], Node.file "x")], []⟩) ∧
    (createDirExecute ⟨[(["a"], Node.file "x")], []⟩ "a/b").1 ≠
      "Successfully created directory: " ++ "a/b" := by
  decide

/-- Claim C9, amended: when nothing exists at the path and the underlying
`mkdir` succeeds (no ancestor is occupied by a regular file and permission
is granted), `CreateDirTool.execute` creates the directory with its missing
parents and returns the creation success message, and a second call then
returns the informational "already exists" message; when a directory already
exists there it returns that same non-error message; when a regular file
occupies the path it returns an error. -/
theorem createDir_spec_amended (fs : FS) (path : String) :
    (∀ fs1, fs.pathExists (parsePath path) = false →
       fs.mkdirParents (parsePath path) = .ok fs1 →
       createDirExecute fs path =
         ("Successfully created directory: " ++ path, fs1) ∧
       createDirExecute fs1 path =
         ("Directory already exists: " ++ path, fs1)) ∧
    (fs.isDir (parsePath path) = true →
       createDirExecute fs path = ("Directory already exists: " ++ path, fs) ∧
       ∀ r : String, "Directory already exists: " ++ path ≠ "Error" ++ r) ∧
    (∀ c, fs.lookup (parsePath path) = some (.file c) →
       createDirExecute fs path =
         ("Error: A file with this name already exists: " ++ path, fs)) := by
  refine ⟨?_, ?_, ?_⟩
  · intro fs1 hne hmk
    have hp := FS.ne_root_of_pathExists_false hne
    have hd1 := FS.mkdirParents_ok_lookup_dir hp hmk
    constructor
    · simp only [createDirExecute, hne, Bool.false_eq_true, if_false, hmk]
    · have he1 : fs1.pathExists (parsePath path) = true := by
        simp [FS.pathExists, hd1]
      have hi1 : fs1.isDir (parsePath path) = true := by
        simp [FS.isDir, hd1]
      simp only [createDirExecute, he1, hi1, if_true]
  · intro hd
    have hlu := FS.isDir_lookup hd
    have he : fs.pathExists (parsePath path) = true := by
      simp [FS.pathExists, hlu]
    constructor
    · simp only [createDirExecute, he, hd, if_true]
    · intro r h
      have h2 := congrArg String.data h
      rw [String.data_append, String.data_append] at h2
      have e1 : ("Directory already exists: " : String).data =
          'D' :: ("irectory already exists: " : String).data := rfl
      have e2 : ("Error" : String).data = 'E' :: ("rror" : String).data := rfl
      rw [e1, e2, List.cons_append, List.cons_append] at h2
      simp at h2
  · intro c hf
    have he : fs.pathExists (parsePath path) = true := by
      simp [FS.pathExists, hf]
    have hi : fs.isDir (parsePath path) = false := by
      simp [FS.isDir, hf]
    simp only [createDirExecute, he, hi, if_true, Bool.false_eq_true, if_false]

/-- Witness for the amended claim C9: fresh path created then reported as
already existing; a file-occupied path reported as an error. -/
theorem createDir_spec_amended_witness :
    (createDirExecute ⟨[], []⟩ "a/b" =
       ("Successfully created directory: " ++ "a/b",
        ⟨[(["a", "b"], Node.dir), (["a"], Node.dir)], []⟩) ∧
     createDirExecute ⟨[(["a", "b"], Node.dir), (["a"], Node.dir)], []⟩ "a/b" =
       ("Directory already exists: " ++ "a/b",
        ⟨[(["a", "b"], Node.dir), (["a"], Node.dir)], []⟩)) ∧
    createDirExecute ⟨[(["f"], Node.file "x")], []⟩ "f" =
      ("Error: A file with this name already exists: " ++ "f",
       ⟨[(["f"], Node.file "x")], []⟩) :=
  ⟨(createDir_spec_amended ⟨[], []⟩ "a/b").1
     ⟨[(["a", "b"], Node.dir), (["a"], Node.dir)], []⟩ (by decide) (by decide),
   (createDir_spec_amended ⟨[(["f"], Node.file "x")], []⟩ "f").2.2 "x"
     (by decide)⟩

/-- Claim C8: `RenameFileTool.execute` returns an error and renames nothing
when `new_name` contains a path separator; it returns the target-exists
error and leaves the filesystem unchanged when the sibling
`parent(old_path)/new_name` already exists; otherwise it renames `old_path`
to that sibling path (the node is found at the sibling and the old path no
longer exists). -/
theorem renameFile_spec (fs : FS) (old_path new_name : String) :
    ((new_name.data.contains '/' = true ∨
        new_name.data.contains '\\' = true) →
       renameFileExecute fs old_path new_name =
         ((if fs.pathExists (parsePath old_path) = true then
             "Error: new_name should be just a name, not a path"
           else "Error: File or directory not found: " ++ old_path), fs)) ∧
    (fs.pathExists (parsePath old_path) = true →
     (new_name.data.contains '/' || new_name.data.contains '\\') = false →
     fs.pathExists (FPath.parent (parsePath old_path) ++ [new_name]) = true →
       renameFileExecute fs old_path new_name =
         ("Error: Target already exists: " ++
            FPath.render (FPath.parent (parsePath old_path) ++ [new_name]),
          fs)) ∧
    (∀ nn, fs.lookup (parsePath old_path) = some nn →
     parsePath old_path ≠ [] →
     (new_name.data.contains '/' || new_name.data.contains '\\') = false →
     fs.pathExists (FPath.parent (parsePath old_path) ++ [new_name]) = false →
     parsePath old_path ∉ fs.denied →
     FPath.parent (parsePath old_path) ++ [new_name] ∉ fs.denied →
       renameFileExecute fs old_path new_name =
         ("Successfully renamed " ++ old_path ++ " to " ++ new_name,
          fs.movePaths (parsePath old_path)
            (FPath.parent (parsePath old_path) ++ [new_name])) ∧
       (fs.movePaths (parsePath old_path)
           (FPath.parent (parsePath old_path) ++ [new_name])).lookup
           (FPath.parent (parsePath old_path) ++ [new_name]) = some nn ∧
       (fs.movePaths (parsePath old_path)
           (FPath.parent (parsePath old_path) ++ [new_name])).pathExists
           (parsePath old_path) = false) := by
  refine ⟨?_, ?_, ?_⟩
  · intro hsep
    by_cases he : fs.pathExists (parsePath old_path) = true
    · have hb : (new_name.data.contains '/' ||
          new_name.data.contains '\\') = true := by
        rcases hsep with h | h
        · rw [h, Bool.true_or]
        · rw [h, Bool.or_true]
      simp only [renameFileExecute, he, Bool.not_true, Bool.false_eq_true,
        if_false, hb, if_true]
    · have he' : fs.pathExists (parsePath old_path) = false := by
        cases h : fs.pathExists (parsePath old_path)
        · rfl
        · exact absurd h he
      simp only [renameFileExecute, he', Bool.not_false, if_true,
        Bool.false_eq_true, if_false]
  · intro he hsep ht
    simp only [renameFileExecute, he, Bool.not_true, Bool.false_eq_true,
      if_false, hsep, ht, if_true]
  · intro nn hlu hne hsep ht hd1 hd2
    have hlu' : lookupEntries (parsePath old_path) fs.entries = some nn := by
      rw [FS.lookup, if_neg hne] at hlu
      exact hlu
    have he : fs.pathExists (parsePath old_path) = true := by
      rw [FS.pathExists, hlu]
      rfl
    have htne : FPath.parent (parsePath old_path) ++ [new_name] ≠ [] := by
      simp
    have hnp : ¬ (FPath.parent (parsePath old_path) ++ [new_name]) <+:
        parsePath old_path := by
      intro hpre
      have hlen : (FPath.parent (parsePath old_path) ++ [new_name]).length =
          (parsePath old_path).length := by
        have h1 := hpre.length_le
        simp only [FPath.parent, List.length_append, List.length_dropLast,
          List.length_cons, List.length_nil] at h1 ⊢
        omega
      have heq := hpre.eq_of_length hlen
      rw [heq, he] at ht
      exact absurd ht (by simp)
    have hl0 : (parsePath old_path).length ≠ 0 := by
      intro h0
      exact hne (List.length_eq_zero.mp h0)
    have hcond : ¬ (nn = Node.dir ∧
        (parsePath old_path).isPrefixOf
          (FPath.parent (parsePath old_path) ++ [new_name]) = true ∧
        parsePath old_path ≠
          FPath.parent (parsePath old_path) ++ [new_name]) := by
      rintro ⟨-, h1b, h2⟩
      have hpre := List.isPrefixOf_iff_prefix.mp h1b
      have hlen : (parsePath old_path).length =
          (FPath.parent (parsePath old_path) ++ [new_name]).length := by
        have h1 := hpre.length_le
        simp only [FPath.parent, List.length_append, List.length_dropLast,
          List.length_cons, List.length_nil] at h1 ⊢
        omega
      exact h2 (hpre.eq_of_length hlen)
    have hmv : fs.moveTree (parsePath old_path)
        (FPath.parent (parsePath old_path) ++ [new_name]) =
        .ok (fs.movePaths (parsePath old_path)
          (FPath.parent (parsePath old_path) ++ [new_name])) :=
      FS.moveTree_ok hd1 hd2 hne hlu' hcond
    refine ⟨?_, ?_, ?_⟩
    · simp only [renameFileExecute, he, Bool.not_true, Bool.false_eq_true,
        if_false, hsep, ht, hmv]
    · rw [FS.lookup, if_neg htne]
      show lookupEntries _ (fs.entries.map _) = some nn
      rw [lookupEntries_movePaths_dst fs.entries
        (FS.forall_ne_of_pathExists_false ht)]
      exact hlu'
    · rw [FS.pathExists, FS.lookup, if_neg hne]
      show (lookupEntries _ (fs.entries.map _)).isSome = false
      rw [lookupEntries_movePaths_src fs.entries hnp]
      rfl

/-- Witness for claim C8: separator rejection, occupied sibling target, and
a successful rename, each at a concrete input. -/
theorem renameFile_spec_witness :
    renameFileExecute ⟨[(["a", "f"], Node.file "1"), (["a"], Node.dir)], []⟩
        "a/f" "g/h" =
      ("Error: new_name should be just a name, not a path",
       ⟨[(["a", "f"], Node.file "1"), (["a"], Node.dir)], []⟩) ∧
    renameFileExecute
        ⟨[(["a", "f"], Node.file "1"), (["a", "g"], Node.file "2"),
          (["a"], Node.dir)], []⟩ "a/f" "g" =
      ("Error: Target already exists: a/g",
       ⟨[(["a", "f"], Node.file "1"), (["a", "g"], Node.file "2"),
         (["a"], Node.dir)], []⟩) ∧
    renameFileExecute ⟨[(["a", "f"], Node.file "1"), (["a"], Node.dir)], []⟩
        "a/f" "g" =
      ("Successfully renamed a/f to g",
       ⟨[(["a", "g"], Node.file "1"), (["a"], Node.dir)], []⟩) ∧
    (⟨[(["a", "g"], Node.file "1"), (["a"], Node.dir)], []⟩ : FS).lookup
        ["a", "g"] = some (Node.file "1") ∧
    (⟨[(["a", "g"], Node.file "1"), (["a"], Node.dir)], []⟩ : FS).pathExists
        ["a", "f"] = false := by
  refine ⟨?_, ?_, ?_⟩
  · exact (renameFile_spec
      ⟨[(["a", "f"], Node.file "1"), (["a"], Node.dir)], []⟩ "a/f" "g/h").1
      (Or.inl (by decide))
  · exact (renameFile_spec
      ⟨[(["a", "f"], Node.file "1"), (["a", "g"], Node.file "2"),
        (["a"], Node.dir)], []⟩ "a/f" "g").2.1 (by decide) (by decide)
      (by decide)
  · have h := (renameFile_spec
      ⟨[(["a", "f"], Node.file "1"), (["a"], Node.dir)], []⟩ "a/f" "g").2.2
      (Node.file "1") (by decide) (by decide) (by decide) (by decide)
      (by decide) (by decide)
    exact ⟨h.1, h.2.1, h.2.2⟩

/-- Claim C6, counterexample: moving the directory `a` with destination `a`
(an existing directory) resolves to `a/a`; the source exists and the
resolved destination is fresh, yet `shutil.move` refuses to move a directory
into itself, so the tool returns an error string and the source is not
moved — falsifying the unconditional placement claim. -/
theorem moveFile_into_itself_cex :
    (⟨[(["a"], Node.dir), (["a", "x"], Node.file "1")], []⟩ : FS).pathExists
        (parsePath "a") = true ∧
    (⟨[(["a"], Node.dir), (["a", "x"], Node.file "1")], []⟩ : FS).isDir
        (parsePath "a") = true ∧
    (⟨[(["a"], Node.dir), (["a", "x"], Node.file "1")], []⟩ : FS).pathExists
        (parsePath "a" ++ [FPath.base (parsePath "a")]) = false ∧
    moveFileExecute ⟨[(["a"], Node.dir), (["a", "x"], Node.file "1")], []⟩
        "a" "a" =
      ("Error moving: Cannot move a directory a into itself a/a.",
       ⟨[(["a"], Node.dir), (["a", "x"], Node.file "1")], []⟩) ∧
    (moveFileExecute ⟨[(["a"], Node.dir), (["a", "x"], Node.file "1")], []⟩
        "a" "a").2.pathExists (parsePath "a") = true ∧
    (moveFileExecute ⟨[(["a"], Node.dir), (["a", "x"], Node.file "1")], []⟩
        "a" "a").2.pathExists
        (parsePath "a" ++ [FPath.base (parsePath "a")]) = false := by
  decide

/-- Claim C6, amended: with an existing source and a destination naming an
existing directory, provided the source is not a directory whose resolved
destination lies inside it, `MoveFileTool.execute` places the source node at
`destination/<source-basename>` and the original source path no longer
exists afterward; it returns an error performing no move when the source is
missing, when the resolved destination already exists, and when the source
is a directory moved into itself. -/
theorem moveFile_spec_amended (fs : FS) (source destination : String) :
    (fs.pathExists (parsePath source) = false →
       moveFileExecute fs source destination =
         ("Error: Source not found: " ++ source, fs)) ∧
    (∀ fs1, fs.pathExists (parsePath source) = true →
       fs.isDir (parsePath destination) = true →
       fs.mkdirParents (parsePath destination) = .ok fs1 →
       fs1.pathExists (parsePath destination ++
         [FPath.base (parsePath source)]) = true →
       moveFileExecute fs source destination =
         ("Error: Destination already exists: " ++ destination, fs1)) ∧
    (∀ fs1, fs.pathExists (parsePath source) = true →
       parsePath source ≠ [] →
       fs.isDir (parsePath destination) = true →
       fs.mkdirParents (parsePath destination) = .ok fs1 →
       fs1.lookup (parsePath source) = some Node.dir →
       fs1.pathExists (parsePath destination ++
         [FPath.base (parsePath source)]) = false →
       parsePath source ∉ fs1.denied →
       parsePath destination ++ [FPath.base (parsePath source)] ∉
         fs1.denied →
       (parsePath source).isPrefixOf (parsePath destination ++
         [FPath.base (parsePath source)]) = true →
       parsePath source ≠ parsePath destination ++
         [FPath.base (parsePath source)] →
       moveFileExecute fs source destination =
         ("Error moving: " ++ PyExc.toMessage (.intoItselfError
            (parsePath source)
            (parsePath destination ++ [FPath.base (parsePath source)])),
          fs1)) ∧
    (∀ fs1 nn, fs.pathExists (parsePath source) = true →
       parsePath source ≠ [] →
       fs.isDir (parsePath destination) = true →
       fs.mkdirParents (parsePath destination) = .ok fs1 →
       fs1.lookup (parsePath source) = some nn →
       fs1.pathExists (parsePath destination ++
         [FPath.base (parsePath source)]) = false →
       parsePath source ∉ fs1.denied →
       parsePath destination ++ [FPath.base (parsePath source)] ∉
         fs1.denied →
       ¬ (parsePath destination ++ [FPath.base (parsePath source)]) <+:
         parsePath source →
       ¬ parsePath source <+:
         (parsePath destination ++ [FPath.base (parsePath source)]) →
       moveFileExecute fs source destination =
         ("Successfully moved " ++ source ++ " to " ++ destination,
          fs1.movePaths (parsePath source)
            (parsePath destination ++ [FPath.base (parsePath source)])) ∧
       (fs1.movePaths (parsePath source)
           (parsePath destination ++ [FPath.base (parsePath source)])).lookup
           (parsePath destination ++ [FPath.base (parsePath source)]) =
         some nn ∧
       (fs1.movePaths (parsePath source)
           (parsePath destination ++
             [FPath.base (parsePath source)])).pathExists
           (parsePath source) = false) := by
  have hpar : FPath.parent (parsePath destination ++
      [FPath.base (parsePath source)]) = parsePath destination := by
    simp [FPath.parent]
  refine ⟨?_, ?_, ?_, ?_⟩
  · intro hne
    simp only [moveFileExecute, hne, Bool.not_false, if_true]
  · intro fs1 he hd hmk hex
    simp only [moveFileExecute, he, Bool.not_true, Bool.false_eq_true,
      if_false, hd, if_true, hpar, hmk, hex]
  · intro fs1 he hne hd hmk hlu1 hex hd1 hd2 hin1 hin2
    have hlu1' : lookupEntries (parsePath source) fs1.entries =
        some Node.dir := by
      rw [FS.lookup, if_neg hne] at hlu1
      exact hlu1
    have hmv := FS.moveTree_into_itself hd1 hd2 hne hlu1' hin1 hin2
    simp only [moveFileExecute, he, Bool.not_true, Bool.false_eq_true,
      if_false, hd, if_true, hpar, hmk, hex, hmv]
  · intro fs1 nn he hne hd hmk hlu1 hex hd1 hd2 hnp hni
    have hlu1' : lookupEntries (parsePath source) fs1.entries = some nn := by
      rw [FS.lookup, if_neg hne] at hlu1
      exact hlu1
    have htne : parsePath destination ++ [FPath.base (parsePath source)] ≠
        [] := by
      simp
    have hcond : ¬ (nn = Node.dir ∧
        (parsePath source).isPrefixOf (parsePath destination ++
          [FPath.base (parsePath source)]) = true ∧
        parsePath source ≠ parsePath destination ++
          [FPath.base (parsePath source)]) := by
      rintro ⟨-, h1b, -⟩
      exact hni ( List.isPrefixOf_iff_prefix.mp h1b)
    have hmv : fs1.moveTree (parsePath source)
        (parsePath destination ++ [FPath.base (parsePath source)]) =
        .ok (fs1.movePaths (parsePath source)
          (parsePath destination ++ [FPath.base (parsePath source)])) :=
      FS.moveTree_ok hd1 hd2 hne hlu1' hcond
    refine ⟨?_, ?_, ?_⟩
    · simp only [moveFileExecute, he, Bool.not_true, Bool.false_eq_true,
        if_false, hd, if_true, hpar, hmk, hex, hmv]
    · rw [FS.lookup, if_neg htne]
      show lookupEntries _ (fs1.entries.map _) = some nn
      rw [lookupEntries_movePaths_dst fs1.entries
        (FS.forall_ne_of_pathExists_false hex)]
      exact hlu1'
    · rw [FS.pathExists, FS.lookup, if_neg hne]
      show (lookupEntries _ (fs1.entries.map _)).isSome = false
      rw [lookupEntries_movePaths_src fs1.entries hnp]
      rfl

/-- Witness for the amended claim C6: missing source, occupied resolved
destination, the directory-into-itself refusal, and a successful move into
an existing directory, each at a concrete input. -/
theorem moveFile_spec_amended_witness :
    moveFileExecute ⟨[(["d"], Node.dir)], []⟩ "s" "d" =
      ("Error: Source not found: s", ⟨[(["d"], Node.dir)], []⟩) ∧
    moveFileExecute
        ⟨[(["s"], Node.file "hi"), (["d"], Node.dir),
          (["d", "s"], Node.file "x")], []⟩ "s" "d" =
      ("Error: Destination already exists: d",
       ⟨[(["s"], Node.file "hi"), (["d"], Node.dir),
         (["d", "s"], Node.file "x")], []⟩) ∧
    moveFileExecute ⟨[(["g"], Node.dir)], []⟩ "g" "g" =
      ("Error moving: " ++ PyExc.toMessage (.intoItselfError
         (parsePath "g")
         (parsePath "g" ++ [FPath.base (parsePath "g")])),
       ⟨[(["g"], Node.dir)], []⟩) ∧
    moveFileExecute ⟨[(["s"], Node.file "hi"), (["d"], Node.dir)], []⟩
        "s" "d" =
      ("Successfully moved s to d",
       ⟨[(["d", "s"], Node.file "hi"), (["d"], Node.dir)], []⟩) ∧
    (⟨[(["d", "s"], Node.file "hi"), (["d"], Node.dir)], []⟩ : FS).lookup
        ["d", "s"] = some (Node.file "hi") ∧
    (⟨[(["d", "s"], Node.file "hi"), (["d"], Node.dir)], []⟩ : FS).pathExists
        ["s"] = false := by
  refine ⟨?_, ?_, ?_, ?_⟩
  · exact (moveFile_spec_amended ⟨[(["d"], Node.dir)], []⟩ "s" "d").1
      (by decide)
  · exact (moveFile_spec_amended
      ⟨[(["s"], Node.file "hi"), (["d"], Node.dir),
        (["d", "s"], Node.file "x")], []⟩ "s" "d").2.1
      ⟨[(["s"], Node.file "hi"), (["d"], Node.dir),
        (["d", "s"], Node.file "x")], []⟩
      (by decide) (by decide) (by decide) (by decide)
  · exact (moveFile_spec_amended ⟨[(["g"], Node.dir)], []⟩ "g" "g").2.2.1
      ⟨[(["g"], Node.dir)], []⟩ (by decide) (by decide) (by decide)
      (by decide) (by decide) (by decide) (by decide) (by decide)
      (by decide) (by decide)
  · have h := (moveFile_spec_amended
      ⟨[(["s"], Node.file "hi"), (["d"], Node.dir)], []⟩ "s" "d").2.2.2
      ⟨[(["s"], Node.file "hi"), (["d"], Node.dir)], []⟩ (Node.file "hi")
      (by decide) (by decide) (by decide) (by decide) (by decide) (by decide)
      (by decide) (by decide) (by decide) (by decide)
    exact ⟨h.1, h.2.1, h.2.2⟩

/-- Claim C7, counterexample: copying the directory `a` with destination `a`
resolves to the fresh destination `a/a` inside the source.  The copy
succeeds but lands inside the source subtree (`copytree` snapshots the
source listing before creating a destination directly below it): afterwards
`a/a` exists below the source where nothing existed before, so the source
subtree is not untouched, and the subtrees at `a` and `a/a` differ at the
relative path `a` — falsifying the untouched-source and identical-trees
claim for destinations inside the source. -/
theorem copyFile_into_source_cex :
    (⟨[(["a"], Node.dir), (["a", "x"], Node.file "1")], []⟩ : FS).isDir
        (parsePath "a") = true ∧
    (⟨[(["a"], Node.dir), (["a", "x"], Node.file "1")], []⟩ : FS).pathExists
        (parsePath "a" ++ [FPath.base (parsePath "a")]) = false ∧
    (copyFileExecute ⟨[(["a"], Node.dir), (["a", "x"], Node.file "1")], []⟩
        "a" "a").1 = "Successfully copied " ++ "a" ++ " to " ++ "a" ∧
    (copyFileExecute ⟨[(["a"], Node.dir), (["a", "x"], Node.file "1")], []⟩
          "a" "a").2.lookup (parsePath "a" ++ ["a"]) ≠
      (⟨[(["a"], Node.dir), (["a", "x"], Node.file "1")], []⟩ : FS).lookup
        (parsePath "a" ++ ["a"]) ∧
    (copyFileExecute ⟨[(["a"], Node.dir), (["a", "x"], Node.file "1")], []⟩
          "a" "a").2.lookup (parsePath "a" ++ ["a"]) ≠
      (copyFileExecute ⟨[(["a"], Node.dir), (["a", "x"], Node.file "1")], []⟩
          "a" "a").2.lookup
        ((parsePath "a" ++ [FPath.base (parsePath "a")]) ++ ["a"]) := by
  decide

/-- Claim C7, amended: for an existing directory source and a fresh resolved
destination that does not lie inside the source subtree, `CopyFileTool.execute`
recursively duplicates the whole subtree at the resolved destination — every
path below the destination resolves to the same node as the corresponding
path below the source — while every path at or below the source is left
untouched; and it returns an error when the resolved destination already
exists. -/
theorem copyFile_dir_duplicates_subtree (fs fs1 : FS)
    (source destination : String) (dest' : FPath)
    (hres : dest' = if fs.isDir (parsePath destination) = true then
        parsePath destination ++ [FPath.base (parsePath source)]
      else parsePath destination)
    (he : fs.pathExists (parsePath source) = true)
    (h1 : fs.mkdirParents (FPath.parent dest') = .ok fs1) :
    (fs1.pathExists dest' = true →
       copyFileExecute fs source destination =
         ("Error: Destination already exists: " ++ destination, fs1)) ∧
    (fs1.pathExists dest' = false →
     parsePath source ≠ [] →
     fs1.isDir (parsePath source) = true →
     parsePath source ∉ fs1.denied →
     dest' ∉ fs1.denied →
     (∀ e ∈ fs1.entries, ¬ dest' <+: e.1) →
     ¬ dest' <+: parsePath source →
     ¬ parsePath source <+: dest' →
       (copyFileExecute fs source destination).1 =
         "Successfully copied " ++ source ++ " to " ++ destination ∧
       (∀ q, parsePath source <+: q →
          (copyFileExecute fs source destination).2.lookup q =
            fs1.lookup q) ∧
       (∀ rest, (copyFileExecute fs source destination).2.lookup
            (dest' ++ rest) =
          fs1.lookup (parsePath source ++ rest))) := by
  constructor
  · intro hex
    simp only [copyFileExecute]
    rw [← hres]
    simp only [he, Bool.not_true, Bool.false_eq_true, if_false, h1, hex,
      if_true]
  · intro hex hne hdir1 hd1 hd2 hne2 hnp hps
    have hlu1 : fs1.lookup (parsePath source) = some Node.dir :=
      FS.isDir_lookup hdir1
    have hlu1' : lookupEntries (parsePath source) fs1.entries =
        some Node.dir := by
      rw [FS.lookup, if_neg hne] at hlu1
      exact hlu1
    have hct : fs1.copyTree (parsePath source) dest' =
        .ok ⟨(fs1.entries.filterMap (fun e =>
            if (parsePath source).isPrefixOf e.1 then
              some (dest' ++ e.1.drop (parsePath source).length, e.2)
            else none)) ++ fs1.entries, fs1.denied⟩ := by
      unfold FS.copyTree
      rw [if_neg (not_or.mpr ⟨hd1, hd2⟩), FS.lookup, if_neg hne, hlu1']
    have hexec : copyFileExecute fs source destination =
        ("Successfully copied " ++ source ++ " to " ++ destination,
         ⟨(fs1.entries.filterMap (fun e =>
             if (parsePath source).isPrefixOf e.1 then
               some (dest' ++ e.1.drop (parsePath source).length, e.2)
             else none)) ++ fs1.entries, fs1.denied⟩) := by
      simp only [copyFileExecute]
      rw [← hres]
      simp only [he, Bool.not_true, Bool.false_eq_true, if_false, h1, hex,
        hdir1, if_true, hct]
    refine ⟨?_, ?_, ?_⟩
    · rw [hexec]
    · intro q hq
      rw [hexec]
      have hqne : q ≠ [] := by
        intro h0
        rw [h0] at hq
        exact hne (List.prefix_nil.mp hq)
      have hqpre : ¬ dest' <+: q := by
        rcases hq with ⟨u, hu⟩
        rw [← hu]
        exact not_prefix_append hnp hps u
      rw [FS.lookup, if_neg hqne, FS.lookup, if_neg hqne]
      exact lookupEntries_append_left_none
        (lookupEntries_of_forall_ne (copies_forall_ne q hqpre))
    · intro rest
      rw [hexec]
      have hde : dest' ≠ [] := FS.ne_root_of_pathExists_false hex
      have h3 : dest' ++ rest ≠ [] := by simp [hde]
      have h4 : parsePath source ++ rest ≠ [] := by simp [hne]
      rw [FS.lookup, if_neg h3, FS.lookup, if_neg h4]
      show lookupEntries (dest' ++ rest) (_ ++ fs1.entries) =
        lookupEntries (parsePath source ++ rest) fs1.entries
      rw [lookupEntries_append_right_none (lookupEntries_of_forall_ne
        (fun e hein hk => hne2 e hein (hk ▸ List.prefix_append dest' rest))),
        lookupEntries_copies]

/-- Witness for claim C7: copying the directory `s` (containing `x` and
`y/z`) to the fresh path `t` reports success, leaves the `s` subtree as it
was, and makes every copied path resolve to the same node as its
original. -/
theorem copyFile_dir_duplicates_subtree_witness :
    (copyFileExecute
        ⟨[(["s"], Node.dir), (["s", "x"], Node.file "1"),
          (["s", "y"], Node.dir), (["s", "y", "z"], Node.file "2")], []⟩
        "s" "t").1 =
      "Successfully copied " ++ "s" ++ " to " ++ "t" ∧
    (copyFileExecute
        ⟨[(["s"], Node.dir), (["s", "x"], Node.file "1"),
          (["s", "y"], Node.dir), (["s", "y", "z"], Node.file "2")], []⟩
        "s" "t").2.lookup ["s", "y", "z"] =
      (⟨[(["s"], Node.dir), (["s", "x"], Node.file "1"),
         (["s", "y"], Node.dir), (["s", "y", "z"], Node.file "2")], []⟩ :
        FS).lookup ["s", "y", "z"] ∧
    (copyFileExecute
        ⟨[(["s"], Node.dir), (["s", "x"], Node.file "1"),
          (["s", "y"], Node.dir), (["s", "y", "z"], Node.file "2")], []⟩
        "s" "t").2.lookup (["t"] ++ ["y", "z"]) =
      (⟨[(["s"], Node.dir), (["s", "x"], Node.file "1"),
         (["s", "y"], Node.dir), (["s", "y", "z"], Node.file "2")], []⟩ :
        FS).lookup (parsePath "s" ++ ["y", "z"]) := by
  have h := (copyFile_dir_duplicates_subtree
    ⟨[(["s"], Node.dir), (["s", "x"], Node.file "1"),
      (["s", "y"], Node.dir), (["s", "y", "z"], Node.file "2")], []⟩
    ⟨[(["s"], Node.dir), (["s", "x"], Node.file "1"),
      (["s", "y"], Node.dir), (["s", "y", "z"], Node.file "2")], []⟩
    "s" "t" ["t"] (by decide) (by decide) (by decide)).2
    (by decide) (by decide) (by decide) (by decide) (by decide) (by decide)
    (by decide) (by decide)
  exact ⟨h.1, h.2.1 ["s", "y", "z"] (by decide), h.2.2 ["y", "z"]⟩
